import Mathlib

/-!
Verification development for the CloudFormation deployment pipeline in
`src/shared/deploy.py` of the `cbd-jenkins-pipeline` repository.

The shallow embedding models:
* Python dictionaries holding deployment parameters (`ParamSet`), with
  Python truthiness where the source relies on it;
* the parameter-resolution phases of `deploy` (deploy.py lines 316-452);
* stack naming (`get_stack_outputs` lines 269-272, `deploy` lines 518-532);
* hosted-zone discovery (`get_hosted_zone_data` lines 67-117);
* template handling and parameter reconciliation (lines 454-516);
* the create/update/rollback state machine (`deploy_cloudformation`
  lines 150-250).

External AWS reads (describe calls, SSM, git) are supplied by a `World`
record; everything the Python code computes from those reads is embedded
faithfully.
-/

namespace CbdDeploy

/-! ## Python string and truthiness primitives -/

/-- A Python value in a parameter dictionary: either a string or `None`.
`none` models Python `None`. -/
abbrev Value := Option String

/-- Python truthiness of an optional string: `None` and `""` are falsy. -/
def pyTruthyOpt (v : Option String) : Bool :=
  match v with
  | some s => s ≠ ""
  | none => false

/-- Python `str()` as used by f-string interpolation and `str(params[k])`. -/
def pyStr (v : Value) : String :=
  match v with
  | some s => s
  | none => "None"

/-- Python `str.upper()` (ASCII model). -/
def pyUpper (s : String) : String := ⟨s.data.map Char.toUpper⟩

/-- Python `str.lower()` (ASCII model). -/
def pyLower (s : String) : String := ⟨s.data.map Char.toLower⟩

/-- The character map of Python `str.replace('_', '-')`. -/
def underscoreToHyphen (c : Char) : Char := if c = '_' then '-' else c

/-- Python `str.replace('_', '-')`. -/
def pyReplaceUnderscore (s : String) : String := ⟨s.data.map underscoreToHyphen⟩

/-- Python `str.rstrip('.')`: drop every trailing `'.'`. -/
def pyRstripDots (s : String) : String :=
  ⟨(s.data.reverse.dropWhile (· = '.')).reverse⟩

/-- Python `a.endswith(b)`. -/
def pyEndsWith (s suffix_ : String) : Bool := suffix_.data.isSuffixOf s.data

/-- Python `str.strip()` (whitespace model). -/
def pyStrip (s : String) : String :=
  ⟨((s.data.dropWhile Char.isWhitespace).reverse.dropWhile Char.isWhitespace).reverse⟩

/-- Helper for Python `str.split(c)` on the character list. -/
def pySplitCharAux (c : Char) : List Char → List (List Char)
  | [] => [[]]
  | ch :: rest =>
    match pySplitCharAux c rest with
    | [] => [[]]
    | cur :: others => if ch = c then [] :: cur :: others else (ch :: cur) :: others

/-- Python `s.split(c)` for a one-character separator. -/
def pySplitChar (s : String) (c : Char) : List String :=
  (pySplitCharAux c s.data).map List.asString

/-- Helper for Python `s.split(c, 1)`: split at the first occurrence. -/
def pySplitFirstAux (c : Char) : List Char → Option (List Char × List Char)
  | [] => none
  | ch :: rest =>
    if ch = c then some ([], rest)
    else (pySplitFirstAux c rest).map (fun p => (ch :: p.1, p.2))

/-- Python `s.split(c, 1)` when the separator occurs, as a pair. -/
def pySplitFirst (s : String) (c : Char) : Option (String × String) :=
  (pySplitFirstAux c s.data).map (fun p => (List.asString p.1, List.asString p.2))

/-- Python `c in s` for a single character. -/
def pyContainsChar (s : String) (c : Char) : Bool := s.data.contains c

/-- Helper for Python `needle in hay` (substring test). -/
def pyInStrAux (needle : List Char) : List Char → Bool
  | [] => needle.isPrefixOf []
  | c :: cs => needle.isPrefixOf (c :: cs) || pyInStrAux needle cs

/-- Python `needle in hay` for strings. -/
def pyInStr (needle hay : String) : Bool := pyInStrAux needle.data hay.data

/-- Helper for Python `s.replace(pat, '')`: non-overlapping leftmost removal,
with fuel for structural recursion. -/
def removePatFuel (pat : List Char) : Nat → List Char → List Char
  | 0, _ => []
  | _, [] => []
  | fuel + 1, c :: cs =>
    if pat ≠ [] && pat.isPrefixOf (c :: cs) then
      removePatFuel pat fuel ((c :: cs).drop pat.length)
    else
      c :: removePatFuel pat fuel cs

/-- Python `s.replace(pat, '')`. -/
def pyRemovePat (s pat : String) : String :=
  ⟨removePatFuel pat.data s.data.length s.data⟩

/-! ## ParameterSet: Python dict of parameters

Modeled as an insertion-ordered association list with unique keys, exactly
the observable behaviour of a Python `dict` of strings. -/

/-- The mutable parameter dictionary of `deploy` (spec: ParameterSet). -/
abbrev ParamSet := List (String × Value)

/-- Python `k in d`. -/
def psHas (ps : ParamSet) (k : String) : Bool := ps.any (fun p => p.1 = k)

/-- Python `d.get(k)` without default: `some v` when present. -/
def psGet (ps : ParamSet) (k : String) : Option Value :=
  (ps.find? (fun p => p.1 = k)).map (·.2)

/-- Python `d.get(k)` (returns `None` when the key is absent). -/
def valAt (ps : ParamSet) (k : String) : Value :=
  match psGet ps k with
  | some v => v
  | none => none

/-- Python `d[k] = v`: replace in place, or append a fresh key. -/
def psSet (ps : ParamSet) (k : String) (v : Value) : ParamSet :=
  match ps with
  | [] => [(k, v)]
  | p :: rest => if p.1 = k then (k, v) :: rest else p :: psSet rest k v

/-- Python `d.update(other)`: fold the writes of `other` in order. -/
def psUpdate (ps : ParamSet) (ws : List (String × Value)) : ParamSet :=
  ws.foldl (fun acc kv => psSet acc kv.1 kv.2) ps

/-- Python `list(d.keys())`. -/
def psKeys (ps : ParamSet) : List String := ps.map (·.1)

/-- The value of the last write for key `k` in a write log, if any. -/
def lastWrite (ws : List (String × Value)) (k : String) : Option Value :=
  (ws.reverse.find? (fun p => p.1 = k)).map (·.2)

/-! ### Dict lemmas -/

theorem psGet_psSet (ps : ParamSet) (k : String) (v : Value) (k' : String) :
    psGet (psSet ps k v) k' = if k' = k then some v else psGet ps k' := by
  induction ps with
  | nil =>
    by_cases h : k' = k
    · subst h; simp [psSet, psGet, List.find?]
    · simp [psSet, psGet, List.find?, h, Ne.symm h]
  | cons p rest ih =>
    by_cases hp : p.1 = k
    · by_cases h : k' = k
      · subst h; simp [psSet, psGet, List.find?, hp]
      · have hp' : p.1 ≠ k' := by rw [hp]; exact Ne.symm h
        simp [psSet, psGet, List.find?, hp, h, Ne.symm h, hp']
    · by_cases h2 : p.1 = k'
      · have hk : k' ≠ k := fun hh => hp (h2.trans hh)
        simp [psSet, psGet, List.find?, hp, h2, hk]
      · simp only [psSet, hp, if_false]
        simp only [psGet, List.find?] at ih ⊢
        have hd : (decide (p.1 = k')) = false := by simp [h2]
        simp only [hd, cond_false]
        exact ih

theorem psHas_psSet (ps : ParamSet) (k : String) (v : Value) (k' : String) :
    psHas (psSet ps k v) k' = (psHas ps k' || k' = k) := by
  induction ps with
  | nil => simp [psSet, psHas, eq_comm]
  | cons p rest ih =>
    simp only [psSet]
    by_cases hp : p.1 = k
    · by_cases h : k' = k
      · subst h; simp [psHas, hp]
      · simp [psHas, hp, h, eq_comm]
    · simp only [hp, if_false]
      simp [psHas] at *
      by_cases h : p.1 = k'
      · simp [h]
      · simp [h, ih]

theorem lastWrite_append (ws₁ ws₂ : List (String × Value)) (k : String) :
    lastWrite (ws₁ ++ ws₂) k =
      (match lastWrite ws₂ k with
       | some v => some v
       | none => lastWrite ws₁ k) := by
  simp only [lastWrite, List.reverse_append, List.find?_append]
  cases h : (ws₂.reverse.find? (fun p => p.1 = k)) <;> simp [Option.orElse, h]

theorem lastWrite_singleton (w : String × Value) (k : String) :
    lastWrite [w] k = if w.1 = k then some w.2 else none := by
  by_cases h : w.1 = k <;> simp [lastWrite, List.find?, h]

theorem psGet_psUpdate (ws : List (String × Value)) :
    ∀ ps k, psGet (psUpdate ps ws) k =
      (match lastWrite ws k with
       | some v => some v
       | none => psGet ps k) := by
  induction ws with
  | nil => intro ps k; simp [psUpdate, lastWrite]
  | cons w rest ih =>
    intro ps k
    have step : psUpdate ps (w :: rest) = psUpdate (psSet ps w.1 w.2) rest := by
      simp [psUpdate]
    rw [step, ih]
    have hlast : lastWrite (w :: rest) k =
        (match lastWrite rest k with
         | some v => some v
         | none => if w.1 = k then some w.2 else none) := by
      have hc : (w :: rest) = [w] ++ rest := rfl
      rw [hc, lastWrite_append]
      cases h : lastWrite rest k <;> simp [lastWrite_singleton]
    rw [hlast, psGet_psSet]
    cases h : lastWrite rest k
    · by_cases hk : w.1 = k
      · simp [hk]
      · have hk' : ¬ (k = w.1) := fun h' => hk h'.symm
        simp [hk, hk']
    · simp

theorem psUpdate_append (ps : ParamSet) (ws₁ ws₂ : List (String × Value)) :
    psUpdate ps (ws₁ ++ ws₂) = psUpdate (psUpdate ps ws₁) ws₂ := by
  simp [psUpdate, List.foldl_append]

theorem psGet_psUpdate_nil (ws : List (String × Value)) (k : String) :
    psGet (psUpdate [] ws) k = lastWrite ws k := by
  rw [psGet_psUpdate]
  cases h : lastWrite ws k <;> simp [psGet, List.find?]

/-! ## Stack naming (StackNamingPolicy)

`get_stack_outputs` (deploy.py lines 269-272) and the deploy stack-name
construction (lines 518-532, 542-546). -/

/-- Python `"-".join(parts)`. -/
def joinHyphen : List String → String
  | [] => ""
  | [x] => x
  | x :: y :: rest => x ++ "-" ++ joinHyphen (y :: rest)

/-- The stack name `get_stack_outputs` derives (deploy.py lines 269-272):
`{PROJECT}-{ENV}-{base}` or `{ENV}-{base}`, underscores to hyphens. -/
def outputStackName (projectName : Option String) (environmentName baseStackName : String) :
    String :=
  if pyTruthyOpt projectName then
    pyReplaceUnderscore
      (pyUpper (projectName.getD "") ++ "-" ++ pyUpper environmentName ++ "-" ++ baseStackName)
  else
    pyReplaceUnderscore (pyUpper environmentName ++ "-" ++ baseStackName)

/-- The stack name `deploy` submits under (deploy.py lines 518-532). -/
def deployStackName (projectName : Option String)
    (environmentName deploymentType deploymentName : String) : String :=
  let parts :=
    if pyTruthyOpt projectName then
      [pyUpper (projectName.getD ""), pyUpper environmentName, deploymentType, deploymentName]
    else
      [pyUpper environmentName, deploymentType, deploymentName]
  pyReplaceUnderscore (joinHyphen parts)

/-- The base stack name `deploy` hands to `get_stack_outputs` after deploying
(deploy.py lines 542-546). -/
def deployedBaseStackName (deploymentType deploymentName : String) : String :=
  pyReplaceUnderscore (joinHyphen [deploymentType, deploymentName])

theorem strMk_append (l₁ l₂ : List Char) :
    (⟨l₁⟩ : String) ++ (⟨l₂⟩ : String) = (⟨l₁ ++ l₂⟩ : String) := rfl

theorem pyReplaceUnderscore_append (a b : String) :
    pyReplaceUnderscore (a ++ b) = pyReplaceUnderscore a ++ pyReplaceUnderscore b := by
  simp [pyReplaceUnderscore, strMk_append]

theorem pyReplaceUnderscore_idem (s : String) :
    pyReplaceUnderscore (pyReplaceUnderscore s) = pyReplaceUnderscore s := by
  have hf : ∀ c, underscoreToHyphen (underscoreToHyphen c) = underscoreToHyphen c := by
    intro c
    by_cases h : c = '_' <;> simp [underscoreToHyphen, h]
  simp [pyReplaceUnderscore, List.map_map, Function.comp_def, hf]

/-- C5: stack naming is a pure deterministic function of the identity
(uppercased project and environment hyphen-joined with type and name,
underscores normalized to hyphens; omitting the project name shortens the
prefix without reordering the remaining components), and the name `deploy`
submits the stack under (lines 518-532) equals the name `get_stack_outputs`
derives for the base name `type-name` (lines 269-272, 542-546). -/
theorem stack_naming_agreement :
    (∀ p e t n, deployStackName p e t n = outputStackName p e (deployedBaseStackName t n)) ∧
    (∀ e t n, deployStackName none e t n =
      pyReplaceUnderscore (pyUpper e ++ "-" ++ t ++ "-" ++ n)) ∧
    (∀ pr e t n, pr ≠ "" → deployStackName (some pr) e t n =
      pyReplaceUnderscore (pyUpper pr ++ "-" ++ pyUpper e ++ "-" ++ t ++ "-" ++ n)) := by
  refine ⟨?_, ?_, ?_⟩
  · intro p e t n
    cases p with
    | none =>
      simp [deployStackName, outputStackName, deployedBaseStackName, pyTruthyOpt, joinHyphen,
        pyReplaceUnderscore_append, pyReplaceUnderscore_idem, String.append_assoc]
    | some pr =>
      by_cases h : pr = "" <;>
        simp [deployStackName, outputStackName, deployedBaseStackName, pyTruthyOpt, h,
          joinHyphen, pyReplaceUnderscore_append, pyReplaceUnderscore_idem, String.append_assoc]
  · intro e t n
    simp [deployStackName, pyTruthyOpt, joinHyphen, String.append_assoc]
  · intro pr e t n h
    simp [deployStackName, pyTruthyOpt, h, joinHyphen, String.append_assoc]

/-- Witness for C5 at a concrete identity containing underscores. -/
theorem stack_naming_agreement_witness :
    ("my_proj" : String) ≠ "" ∧
    deployStackName (some "my_proj") "Dev" "service" "api_x" =
      pyReplaceUnderscore (pyUpper "my_proj" ++ "-" ++ pyUpper "Dev" ++ "-" ++ "service" ++
        "-" ++ "api_x") :=
  ⟨by decide, stack_naming_agreement.2.2 "my_proj" "Dev" "service" "api_x" (by decide)⟩

/-! ## Infrastructure discovery (deploy.py lines 23-148, 252-314) -/

/-- One entry of a VPC's `CidrBlockAssociationSet`. -/
structure CidrAssoc where
  cidrBlock : String
  cidrState : Option String
deriving DecidableEq

/-- A VPC as returned by `describe_vpcs`. `cidrBlock = none` models the
`CidrBlock` key being absent. An absent or empty association set is the
empty list (both behave identically in the source). -/
structure Vpc where
  vpcId : String
  cidrAssocs : List CidrAssoc
  cidrBlock : Option String
deriving DecidableEq

/-- Embeds `get_vpc_data` (deploy.py lines 23-65): takes the first VPC, prefers the
first `associated` CIDR association, falls back to the plain `CidrBlock`
when the association result is falsy, and always returns both keys. -/
def getVpcData (vpcs : List Vpc) : List (String × Value) :=
  match vpcs with
  | [] => [("VPCId", none), ("VPCCidr", none)]
  | v :: _ =>
    let vpcCidr : Value :=
      match v.cidrAssocs.find? (fun a => a.cidrState = some "associated") with
      | some a => some a.cidrBlock
      | none => none
    let vpcCidr : Value :=
      if !pyTruthyOpt vpcCidr && v.cidrBlock.isSome then v.cidrBlock else vpcCidr
    [("VPCId", some v.vpcId), ("VPCCidr", vpcCidr)]

/-- A Route53 hosted zone as returned by `list_hosted_zones` (pagination
flattened into one listing-ordered list). -/
structure Zone where
  name : String
  id : String
  privateZone : Bool
deriving DecidableEq

/-- The result record of `get_hosted_zone_data` (deploy.py lines 71-76). -/
structure HostedZoneInfo where
  publicHostedZoneName : Option String
  publicHostedZoneId : Option String
  privateHostedZoneName : Option String
  privateHostedZoneId : Option String
deriving DecidableEq

/-- Computes `zone['Id'].replace('/hostedzone/', '')` (deploy.py line 88). -/
def processedZoneId (z : Zone) : String := pyRemovePat z.id "/hostedzone/"

/-- Suffix normalization of `get_hosted_zone_data` (deploy.py lines 78-81). -/
def normalizeSuffix (hostedZoneSuffix : String) : String :=
  if pyEndsWith hostedZoneSuffix "." then hostedZoneSuffix else hostedZoneSuffix ++ "."

/-- The zone-scanning loop of `get_hosted_zone_data` (deploy.py lines 84-105):
fill each visibility slot when its stored name is falsy, stop early once both
are truthy. -/
def hostedZoneLoop (searchSuffix : String) : List Zone → HostedZoneInfo → HostedZoneInfo
  | [], info => info
  | z :: rest, info =>
    let info' :=
      if pyEndsWith z.name searchSuffix then
        let processedZoneName := pyRstripDots z.name
        if z.privateZone then
          if pyTruthyOpt info.privateHostedZoneName then info
          else { info with privateHostedZoneName := some processedZoneName,
                           privateHostedZoneId := some (processedZoneId z) }
        else
          if pyTruthyOpt info.publicHostedZoneName then info
          else { info with publicHostedZoneName := some processedZoneName,
                           publicHostedZoneId := some (processedZoneId z) }
      else info
    if pyTruthyOpt info'.publicHostedZoneName && pyTruthyOpt info'.privateHostedZoneName then
      info'
    else hostedZoneLoop searchSuffix rest info'

/-- Embeds `get_hosted_zone_data` (deploy.py lines 67-117). -/
def getHostedZoneData (hostedZoneSuffix : String) (zones : List Zone) : HostedZoneInfo :=
  hostedZoneLoop (normalizeSuffix hostedZoneSuffix) zones ⟨none, none, none, none⟩

/-- The four writes `params.update(hosted_zone_data)` performs, in the dict's
insertion order (deploy.py lines 71-76, 352). -/
def hostedZoneWrites (info : HostedZoneInfo) : List (String × Value) :=
  [("PublicHostedZoneName", info.publicHostedZoneName),
   ("PublicHostedZoneId", info.publicHostedZoneId),
   ("PrivateHostedZoneName", info.privateHostedZoneName),
   ("PrivateHostedZoneId", info.privateHostedZoneId)]

/-- A subnet as returned by `describe_subnets`. -/
structure Subnet where
  subnetId : String
  tags : List (String × String)
deriving DecidableEq

/-- Embeds `get_subnet_data` (deploy.py lines 119-148): map each subnet's `Name`
tag value to its id; subnets with a falsy name tag are skipped. -/
def getSubnetData (subnets : List Subnet) : List (String × Value) :=
  subnets.foldl
    (fun acc sn =>
      match sn.tags.find? (fun t => t.1 = "Name") with
      | some t => if t.2 = "" then acc else psSet acc t.2 (some sn.subnetId)
      | none => acc)
    []

/-- One entry of a stack's `Outputs` list. -/
structure StackOutput where
  outputKey : Option String
  outputValue : Value
deriving DecidableEq

/-- The outcome of `describe_stacks` for one stack name. -/
inductive DescribeResult where
  /-- `ClientError` whose message contains `does not exist`. -/
  | notExist
  /-- a response whose `Stacks` entry is missing or empty (lines 281-283). -/
  | emptyStacks
  /-- the first stack's `Outputs` value (`none` = key absent). -/
  | described (outputs : Option (List StackOutput))
deriving DecidableEq

/-- The external reads a resolution run performs. -/
structure World where
  vpcs : List Vpc
  zones : List Zone
  subnets : String → List Subnet
  stacksAt : String → String → DescribeResult
  gitHash : Option String
  ssm : String → Option (List (String × Value))

/-- Embeds `get_stack_outputs` (deploy.py lines 252-314): derive the canonical stack
name, return the dict of outputs, and return an empty dict when the stack
does not exist, the response has no stacks, or `Outputs` is falsy. Outputs
with a falsy `OutputKey` are skipped. -/
def getStackOutputs (w : World) (stackRegion : String) (projectName : Option String)
    (environmentName baseStackName : String) : List (String × Value) :=
  let actualStackName := outputStackName projectName environmentName baseStackName
  match w.stacksAt stackRegion actualStackName with
  | .notExist => []
  | .emptyStacks => []
  | .described none => []
  | .described (some outs) =>
    outs.foldl
      (fun acc o =>
        match o.outputKey with
        | some k => if k = "" then acc else psSet acc k o.outputValue
        | none => acc)
      []

/-! ## Hosted-zone selection (claim C6) -/

/-- Spec-side: the first zone in listing order of the given visibility whose
name ends with the search suffix. -/
def firstZone (priv : Bool) (searchSuffix : String) (zones : List Zone) : Option Zone :=
  zones.find? (fun z => z.privateZone == priv && pyEndsWith z.name searchSuffix)

/-- Characterization of the scanning loop: as long as every matching zone has
a non-empty dot-stripped name, each empty slot is filled by the first
matching zone of its visibility and filled slots are kept. -/
theorem hostedZoneLoop_char (s : String) :
    ∀ (zones : List Zone),
      (∀ z ∈ zones, pyEndsWith z.name s = true → pyRstripDots z.name ≠ "") →
      ∀ (pn pi vn vi : Option String),
        pn ≠ some "" → vn ≠ some "" →
        hostedZoneLoop s zones ⟨pn, pi, vn, vi⟩ =
          ⟨(match pn with
            | some x => some x
            | none => (firstZone false s zones).map (fun z => pyRstripDots z.name)),
           (match pn with
            | some _ => pi
            | none =>
              match firstZone false s zones with
              | some z => some (processedZoneId z)
              | none => pi),
           (match vn with
            | some x => some x
            | none => (firstZone true s zones).map (fun z => pyRstripDots z.name)),
           (match vn with
            | some _ => vi
            | none =>
              match firstZone true s zones with
              | some z => some (processedZoneId z)
              | none => vi)⟩ := by
  intro zones
  induction zones with
  | nil =>
    intro _ pn pi vn vi _ _
    cases pn <;> cases vn <;> simp [hostedZoneLoop, firstZone]
  | cons z rest ih =>
    intro hz pn pi vn vi hpn hvn
    have hzrest : ∀ z' ∈ rest, pyEndsWith z'.name s = true → pyRstripDots z'.name ≠ "" :=
      fun z' hm => hz z' (List.mem_cons_of_mem _ hm)
    cases hP : pyEndsWith z.name s with
    | false =>
      have hfz : ∀ b, firstZone b s (z :: rest) = firstZone b s rest := by
        intro b; simp [firstZone, List.find?_cons, hP]
      cases pn with
      | some x =>
        have hx : x ≠ "" := fun hx0 => hpn (by rw [hx0])
        cases vn with
        | some y =>
          have hy : y ≠ "" := fun hy0 => hvn (by rw [hy0])
          simp [hostedZoneLoop, hP, pyTruthyOpt, hx, hy]
        | none =>
          have hloop : hostedZoneLoop s (z :: rest) ⟨some x, pi, none, vi⟩ =
              hostedZoneLoop s rest ⟨some x, pi, none, vi⟩ := by
            simp [hostedZoneLoop, hP, pyTruthyOpt]
          rw [hloop, ih hzrest (some x) pi none vi hpn hvn]
          simp [hfz]
      | none =>
        cases vn with
        | some y =>
          have hloop : hostedZoneLoop s (z :: rest) ⟨none, pi, some y, vi⟩ =
              hostedZoneLoop s rest ⟨none, pi, some y, vi⟩ := by
            simp [hostedZoneLoop, hP, pyTruthyOpt]
          rw [hloop, ih hzrest none pi (some y) vi hpn hvn]
          simp [hfz]
        | none =>
          have hloop : hostedZoneLoop s (z :: rest) ⟨none, pi, none, vi⟩ =
              hostedZoneLoop s rest ⟨none, pi, none, vi⟩ := by
            simp [hostedZoneLoop, hP, pyTruthyOpt]
          rw [hloop, ih hzrest none pi none vi hpn hvn]
          simp [hfz]
    | true =>
      have hstrip : pyRstripDots z.name ≠ "" := hz z (List.mem_cons_self _ _) hP
      cases hpriv : z.privateZone with
      | false =>
        have hfzpub : firstZone false s (z :: rest) = some z := by
          simp [firstZone, List.find?_cons, hP, hpriv]
        have hfzpriv : firstZone true s (z :: rest) = firstZone true s rest := by
          simp [firstZone, List.find?_cons, hP, hpriv]
        cases pn with
        | some x =>
          have hx : x ≠ "" := fun hx0 => hpn (by rw [hx0])
          cases vn with
          | some y =>
            have hy : y ≠ "" := fun hy0 => hvn (by rw [hy0])
            simp [hostedZoneLoop, hP, hpriv, pyTruthyOpt, hx, hy, hfzpub]
          | none =>
            have hloop : hostedZoneLoop s (z :: rest) ⟨some x, pi, none, vi⟩ =
                hostedZoneLoop s rest ⟨some x, pi, none, vi⟩ := by
              simp [hostedZoneLoop, hP, hpriv, pyTruthyOpt, hx]
            rw [hloop, ih hzrest (some x) pi none vi hpn hvn]
            simp [hfzpriv]
        | none =>
          cases vn with
          | some y =>
            have hy : y ≠ "" := fun hy0 => hvn (by rw [hy0])
            simp [hostedZoneLoop, hP, hpriv, pyTruthyOpt, hstrip, hy, hfzpub]
          | none =>
            have hloop : hostedZoneLoop s (z :: rest) ⟨none, pi, none, vi⟩ =
                hostedZoneLoop s rest
                  ⟨some (pyRstripDots z.name), some (processedZoneId z), none, vi⟩ := by
              simp [hostedZoneLoop, hP, hpriv, pyTruthyOpt]
            rw [hloop, ih hzrest (some (pyRstripDots z.name)) (some (processedZoneId z)) none vi
              (by simpa using hstrip) hvn]
            simp [hfzpub, hfzpriv]
      | true =>
        have hfzpriv : firstZone true s (z :: rest) = some z := by
          simp [firstZone, List.find?_cons, hP, hpriv]
        have hfzpub : firstZone false s (z :: rest) = firstZone false s rest := by
          simp [firstZone, List.find?_cons, hP, hpriv]
        cases vn with
        | some y =>
          have hy : y ≠ "" := fun hy0 => hvn (by rw [hy0])
          cases pn with
          | some x =>
            have hx : x ≠ "" := fun hx0 => hpn (by rw [hx0])
            simp [hostedZoneLoop, hP, hpriv, pyTruthyOpt, hx, hy, hfzpriv]
          | none =>
            have hloop : hostedZoneLoop s (z :: rest) ⟨none, pi, some y, vi⟩ =
                hostedZoneLoop s rest ⟨none, pi, some y, vi⟩ := by
              simp [hostedZoneLoop, hP, hpriv, pyTruthyOpt, hy]
            rw [hloop, ih hzrest none pi (some y) vi hpn hvn]
            simp [hfzpub]
        | none =>
          cases pn with
          | some x =>
            have hx : x ≠ "" := fun hx0 => hpn (by rw [hx0])
            simp [hostedZoneLoop, hP, hpriv, pyTruthyOpt, hstrip, hx, hfzpriv]
          | none =>
            have hloop : hostedZoneLoop s (z :: rest) ⟨none, pi, none, vi⟩ =
                hostedZoneLoop s rest
                  ⟨none, pi, some (pyRstripDots z.name), some (processedZoneId z)⟩ := by
              simp [hostedZoneLoop, hP, hpriv, pyTruthyOpt]
            rw [hloop, ih hzrest none pi (some (pyRstripDots z.name)) (some (processedZoneId z))
              hpn (by simpa using hstrip)]
            simp [hfzpub, hfzpriv]

/-- C6 (amended): hosted-zone lookup normalizes the search suffix to end with
a trailing dot before comparison (so a suffix lacking the separator still
matches), and — provided no matching zone name consists solely of dots, which
can only happen when the suffix itself is empty or all dots — selects for each
visibility type the first zone in listing order whose name ends with the
normalized suffix, leaving the entry null when no zone of that type matches.
(A matching zone whose dot-stripped name is empty is stored falsy and can be
overwritten by a later match; see the counterexample.) -/
theorem hosted_zone_first_match (hostedZoneSuffix : String) (zones : List Zone)
    (h : zones.all
      (fun z => !pyEndsWith z.name (normalizeSuffix hostedZoneSuffix)
        || !(pyRstripDots z.name == "")) = true) :
    getHostedZoneData hostedZoneSuffix zones =
      { publicHostedZoneName :=
          (firstZone false (normalizeSuffix hostedZoneSuffix) zones).map
            (fun z => pyRstripDots z.name),
        publicHostedZoneId :=
          (firstZone false (normalizeSuffix hostedZoneSuffix) zones).map processedZoneId,
        privateHostedZoneName :=
          (firstZone true (normalizeSuffix hostedZoneSuffix) zones).map
            (fun z => pyRstripDots z.name),
        privateHostedZoneId :=
          (firstZone true (normalizeSuffix hostedZoneSuffix) zones).map processedZoneId } := by
  have h' : ∀ z ∈ zones,
      pyEndsWith z.name (normalizeSuffix hostedZoneSuffix) = true →
      pyRstripDots z.name ≠ "" := by
    intro z hm hsfx
    have hx := List.all_eq_true.mp h z hm
    simp only [hsfx, Bool.not_true, Bool.false_or, Bool.not_eq_true',
      beq_eq_false_iff_ne, ne_eq] at hx
    exact hx
  have hc := hostedZoneLoop_char (normalizeSuffix hostedZoneSuffix) zones h'
    none none none none (by simp) (by simp)
  rw [getHostedZoneData, hc]
  cases hp : firstZone false (normalizeSuffix hostedZoneSuffix) zones <;>
    cases hv : firstZone true (normalizeSuffix hostedZoneSuffix) zones <;> simp

/-- Witness for C6 at the spec's example: suffix `example.com` (no trailing
dot) against zones `a.example.com.` and `b.other.com.`. -/
theorem hosted_zone_first_match_witness :
    (([⟨"a.example.com.", "/hostedzone/Z1", false⟩,
       ⟨"b.other.com.", "/hostedzone/Z2", false⟩] : List Zone).all
      (fun z => !pyEndsWith z.name (normalizeSuffix "example.com")
        || !(pyRstripDots z.name == "")) = true) ∧
    getHostedZoneData "example.com"
      [⟨"a.example.com.", "/hostedzone/Z1", false⟩,
       ⟨"b.other.com.", "/hostedzone/Z2", false⟩] =
      { publicHostedZoneName :=
          (firstZone false (normalizeSuffix "example.com")
            [⟨"a.example.com.", "/hostedzone/Z1", false⟩,
             ⟨"b.other.com.", "/hostedzone/Z2", false⟩]).map (fun z => pyRstripDots z.name),
        publicHostedZoneId :=
          (firstZone false (normalizeSuffix "example.com")
            [⟨"a.example.com.", "/hostedzone/Z1", false⟩,
             ⟨"b.other.com.", "/hostedzone/Z2", false⟩]).map processedZoneId,
        privateHostedZoneName :=
          (firstZone true (normalizeSuffix "example.com")
            [⟨"a.example.com.", "/hostedzone/Z1", false⟩,
             ⟨"b.other.com.", "/hostedzone/Z2", false⟩]).map (fun z => pyRstripDots z.name),
        privateHostedZoneId :=
          (firstZone true (normalizeSuffix "example.com")
            [⟨"a.example.com.", "/hostedzone/Z1", false⟩,
             ⟨"b.other.com.", "/hostedzone/Z2", false⟩]).map processedZoneId } ∧
    getHostedZoneData "example.com"
      [⟨"a.example.com.", "/hostedzone/Z1", false⟩,
       ⟨"b.other.com.", "/hostedzone/Z2", false⟩] =
      ⟨some "a.example.com", some "Z1", none, none⟩ :=
  ⟨by decide,
   hosted_zone_first_match "example.com"
     [⟨"a.example.com.", "/hostedzone/Z1", false⟩,
      ⟨"b.other.com.", "/hostedzone/Z2", false⟩] (by decide),
   by decide⟩

/-- C6 counterexample: with suffix `"."` and zones `"."` then `"a."` (both
public), the zone the code reports is the second one, not the first matching
zone in listing order — the first match's dot-stripped name is empty, which
is falsy, so the later match overwrites it. This refutes the claim that for
every input the first matching zone of each visibility type is selected. -/
theorem hosted_zone_first_match_counterexample :
    firstZone false (normalizeSuffix ".")
      [⟨".", "/hostedzone/Z1", false⟩, ⟨"a.", "/hostedzone/Z2", false⟩] =
      some ⟨".", "/hostedzone/Z1", false⟩ ∧
    (getHostedZoneData "."
      [⟨".", "/hostedzone/Z1", false⟩, ⟨"a.", "/hostedzone/Z2", false⟩]).publicHostedZoneId =
      some "Z2" ∧
    (some "Z2" : Option String) ≠
      (firstZone false (normalizeSuffix ".")
        [⟨".", "/hostedzone/Z1", false⟩, ⟨"a.", "/hostedzone/Z2", false⟩]).map
        processedZoneId := by
  refine ⟨by decide, by decide, by decide⟩

/-! ## Parameter resolution pipeline (`deploy`, lines 316-452) -/

/-- The caller-supplied inputs of one `deploy` invocation (lines 316, 554-581).
`none` models absent optional arguments. -/
structure Config where
  awsAccountId : String
  awsRegion : String
  deploymentName : String
  deploymentType : String
  environmentName : String
  hostedZoneSuffix : String
  projectName : Option String
  buildId : Option String
  parentStacksCsv : Option String
  cliParams : List String

/-- Phase 1: the initial parameter dict (deploy.py lines 330-343). -/
def phase1Params (cfg : Config) : ParamSet :=
  let ps : ParamSet :=
    [("AccountId", some cfg.awsAccountId),
     ("Region", some cfg.awsRegion),
     ("DeploymentName", some cfg.deploymentName),
     ("EnvironmentNameLower", some (pyLower cfg.environmentName)),
     ("EnvironmentNameUpper", some (pyUpper cfg.environmentName))]
  let ps := if pyTruthyOpt cfg.projectName then psSet ps "ProjectName" cfg.projectName else ps
  if pyTruthyOpt cfg.buildId then psSet ps "BuildId" cfg.buildId else ps

/-- The write sequence phase 1 performs, in program order. -/
def phase1Writes (cfg : Config) : List (String × Value) :=
  [("AccountId", some cfg.awsAccountId),
   ("Region", some cfg.awsRegion),
   ("DeploymentName", some cfg.deploymentName),
   ("EnvironmentNameLower", some (pyLower cfg.environmentName)),
   ("EnvironmentNameUpper", some (pyUpper cfg.environmentName))] ++
  (if pyTruthyOpt cfg.projectName then [("ProjectName", cfg.projectName)] else []) ++
  (if pyTruthyOpt cfg.buildId then [("BuildId", cfg.buildId)] else [])

/-- Parent-stack list parsing (deploy.py line 367). -/
def parseParentEntries (csv : String) : List String :=
  ((pySplitChar csv ',').map pyStrip).filter (fun e => e ≠ "")

/-- Per-entry `{parent}@{region}` parsing (deploy.py lines 371-378). -/
def parseParentEntry (entry awsRegion : String) : String × String :=
  if pyContainsChar entry '@' then
    match pySplitFirst entry '@' with
    | some (b, r) => (pyStrip b, pyStrip r)
    | none => (entry, awsRegion)
  else (entry, awsRegion)

/-- The parent-stack entries a run processes (deploy.py lines 366-368):
none when `--parent-stacks` is absent or falsy. -/
def parentEntries (cfg : Config) : List String :=
  match cfg.parentStacksCsv with
  | none => []
  | some csv => if csv = "" then [] else parseParentEntries csv

/-- The fatal message of deploy.py line 397. -/
def criticalParentMsg (fullName region : String) : String :=
  "CRITICAL ERROR: Failed to retrieve outputs from required parent stack '" ++ fullName ++
    "' in region '" ++ region ++
    "'. This stack is required for deployment and must exist with valid outputs."

/-- The outputs one parent entry contributes (deploy.py lines 371-390). -/
def parentOutputs (w : World) (cfg : Config) (entry : String) : List (String × Value) :=
  let pr := parseParentEntry entry cfg.awsRegion
  getStackOutputs w pr.2 cfg.projectName cfg.environmentName pr.1

/-- One iteration of the parent-stack loop (deploy.py lines 370-401). -/
def parentStep (w : World) (cfg : Config) (st : ParamSet × List (String × Value))
    (entry : String) : Except String (ParamSet × List (String × Value)) :=
  let pr := parseParentEntry entry cfg.awsRegion
  let outs := getStackOutputs w pr.2 cfg.projectName cfg.environmentName pr.1
  if outs.isEmpty then
    .error (criticalParentMsg
      (outputStackName cfg.projectName cfg.environmentName pr.1) pr.2)
  else
    .ok (psUpdate st.1 outs, st.2 ++ outs)

/-- The parent-stack phase (deploy.py lines 364-403), instrumented with the
write log in the second component. -/
def parentPhase (w : World) (cfg : Config) (st : ParamSet × List (String × Value)) :
    Except String (ParamSet × List (String × Value)) :=
  (parentEntries cfg).foldlM (parentStep w cfg) st

/-- Subnet-phase writes (deploy.py lines 355-362): skipped when the stored
`VPCId` value is falsy. -/
def subnetPhaseWrites (w : World) (ps : ParamSet) : List (String × Value) :=
  match valAt ps "VPCId" with
  | some vid => if vid = "" then [] else getSubnetData (w.subnets vid)
  | none => []

/-- BuildId auto-generation (deploy.py lines 405-416): only when the key is
absent, and only when git yields a hash. -/
def buildIdWrites (w : World) (ps : ParamSet) : List (String × Value) :=
  if psHas ps "BuildId" then []
  else
    match w.gitHash with
    | some h => [("BuildId", some h)]
    | none => []

/-- The SSM parameter-store key (deploy.py line 421), built from the value of
`EnvironmentNameLower` held in the dict at that point. -/
def ssmPath (ps : ParamSet) : String :=
  "/deploy/" ++ pyStr (valAt ps "EnvironmentNameLower") ++ "/params.json"

/-- SSM-phase writes (deploy.py lines 419-433): `none` from the store covers
both `ParameterNotFound` and parse errors, which are skipped. -/
def ssmWrites (w : World) (ps : ParamSet) : List (String × Value) :=
  match w.ssm (ssmPath ps) with
  | some kvs => kvs
  | none => []

/-- CLI `--param KEY=VALUE` writes in order; entries without `=` are skipped
(deploy.py lines 435-452). -/
def cliWrites (cliParams : List String) : List (String × Value) :=
  cliParams.foldl
    (fun acc pstr =>
      match pySplitFirst pstr '=' with
      | some (k, v) => acc ++ [(k, some v)]
      | none => acc)
    []

/-- Phases 1-2 of `deploy` (lines 329-362): base parameters, then VPC,
hosted-zone and subnet discovery merged in program order, instrumented with
the write log. -/
def discoveryState (w : World) (cfg : Config) : ParamSet × List (String × Value) :=
  let ps1 := phase1Params cfg
  let vw := getVpcData w.vpcs
  let ps2 := psUpdate ps1 vw
  let zw := hostedZoneWrites (getHostedZoneData cfg.hostedZoneSuffix w.zones)
  let ps3 := psUpdate ps2 zw
  let sw := subnetPhaseWrites w ps3
  (psUpdate ps3 sw, phase1Writes cfg ++ vw ++ zw ++ sw)

/-- Resolution up to and including BuildId auto-generation (deploy.py lines
329-416), instrumented with the sequence of dict writes performed so far. -/
def preSsmState (w : World) (cfg : Config) :
    Except String (ParamSet × List (String × Value)) := do
  let st ← parentPhase w cfg (discoveryState w cfg)
  let bw := buildIdWrites w st.1
  pure (psUpdate st.1 bw, st.2 ++ bw)

/-- The whole parameter resolution of `deploy` (deploy.py lines 329-452),
instrumented with the write log. -/
def resolveLog (w : World) (cfg : Config) :
    Except String (ParamSet × List (String × Value)) := do
  let st ← preSsmState w cfg
  let mw := ssmWrites w st.1
  let st2 : ParamSet × List (String × Value) := (psUpdate st.1 mw, st.2 ++ mw)
  let cw := cliWrites cfg.cliParams
  pure (psUpdate st2.1 cw, st2.2 ++ cw)

/-- The resolved ParameterSet of one run. -/
def resolveParams (w : World) (cfg : Config) : Except String ParamSet :=
  (resolveLog w cfg).map (·.1)

/-! ### Pipeline lemmas -/

theorem phase1_eq_update (cfg : Config) :
    phase1Params cfg = psUpdate [] (phase1Writes cfg) := by
  cases hp : pyTruthyOpt cfg.projectName <;> cases hb : pyTruthyOpt cfg.buildId <;>
    simp [phase1Params, phase1Writes, psUpdate, psSet, hp, hb]

theorem foldl_append_acc {α β : Type} (f : α → List β) :
    ∀ (es : List α) (acc : List β),
      es.foldl (fun a e => a ++ f e) acc = acc ++ es.foldl (fun a e => a ++ f e) [] := by
  intro es
  induction es with
  | nil => intro acc; simp
  | cons e rest ih =>
    intro acc
    simp only [List.foldl_cons]
    rw [ih (acc ++ f e), ih ([] ++ f e)]
    simp [List.append_assoc]

theorem foldl_psUpdate_concat (f : String → List (String × Value)) :
    ∀ (es : List String) (a : ParamSet),
      es.foldl (fun a e => psUpdate a (f e)) a =
        psUpdate a (es.foldl (fun acc e => acc ++ f e) []) := by
  intro es
  induction es with
  | nil => intro a; simp [psUpdate]
  | cons e rest ih =>
    intro a
    simp only [List.foldl_cons]
    rw [ih (psUpdate a (f e)), foldl_append_acc f rest ([] ++ f e)]
    simp [psUpdate_append]

/-- The parent-stack loop in closed form: the first entry with an empty
output dict aborts the run with the critical message; otherwise every
entry's outputs are merged in list order. -/
theorem parentFold_char (w : World) (cfg : Config) :
    ∀ (es : List String) (st : ParamSet × List (String × Value)),
      es.foldlM (parentStep w cfg) st =
        (match es.find? (fun e => (parentOutputs w cfg e).isEmpty) with
         | some e =>
           .error (criticalParentMsg
             (outputStackName cfg.projectName cfg.environmentName
               (parseParentEntry e cfg.awsRegion).1)
             (parseParentEntry e cfg.awsRegion).2)
         | none =>
           .ok (es.foldl (fun a e => psUpdate a (parentOutputs w cfg e)) st.1,
                st.2 ++ es.foldl (fun acc e => acc ++ parentOutputs w cfg e) [])) := by
  intro es
  induction es with
  | nil => intro st; simp [List.foldlM, List.find?, pure, Except.pure]
  | cons e rest ih =>
    intro st
    cases hout : (parentOutputs w cfg e).isEmpty with
    | true =>
      have hstep : parentStep w cfg st e =
          .error (criticalParentMsg
            (outputStackName cfg.projectName cfg.environmentName
              (parseParentEntry e cfg.awsRegion).1)
            (parseParentEntry e cfg.awsRegion).2) := by
        simp only [parentStep]
        simp only [parentOutputs] at hout
        simp [hout]
      simp [List.foldlM, hstep, List.find?_cons, hout, Bind.bind, Except.bind]
    | false =>
      have hstep : parentStep w cfg st e =
          .ok (psUpdate st.1 (parentOutputs w cfg e), st.2 ++ parentOutputs w cfg e) := by
        simp only [parentStep]
        simp only [parentOutputs] at hout ⊢
        simp [hout]
      simp only [List.foldlM, hstep, Bind.bind, Except.bind]
      rw [ih (psUpdate st.1 (parentOutputs w cfg e), st.2 ++ parentOutputs w cfg e)]
      simp only [List.find?_cons, hout]
      cases hf : rest.find? (fun e => (parentOutputs w cfg e).isEmpty) with
      | some e' => simp
      | none =>
        simp only [List.foldl_cons]
        rw [foldl_append_acc (parentOutputs w cfg) rest ([] ++ parentOutputs w cfg e)]
        simp [List.append_assoc]

theorem discoveryState_inv (w : World) (cfg : Config) :
    (discoveryState w cfg).1 = psUpdate [] (discoveryState w cfg).2 := by
  simp [discoveryState, psUpdate_append, phase1_eq_update]

theorem parentPhase_inv (w : World) (cfg : Config)
    (st : ParamSet × List (String × Value)) (hst : st.1 = psUpdate [] st.2) :
    ∀ st', parentPhase w cfg st = .ok st' → st'.1 = psUpdate [] st'.2 := by
  intro st' h
  rw [parentPhase, parentFold_char] at h
  cases hf : (parentEntries cfg).find? (fun e => (parentOutputs w cfg e).isEmpty) with
  | some e => rw [hf] at h; cases h
  | none =>
    rw [hf] at h
    cases h
    rw [foldl_psUpdate_concat, hst, ← psUpdate_append]

theorem preSsm_inv (w : World) (cfg : Config) (ps : ParamSet)
    (log : List (String × Value)) (h : preSsmState w cfg = .ok (ps, log)) :
    ps = psUpdate [] log := by
  rw [preSsmState] at h
  cases hpp : parentPhase w cfg (discoveryState w cfg) with
  | error m => rw [hpp] at h; simp [Bind.bind, Except.bind] at h
  | ok st0 =>
    rw [hpp] at h
    simp only [Bind.bind, Except.bind, pure, Except.pure, Except.ok.injEq, Prod.mk.injEq] at h
    obtain ⟨hps, hlog⟩ := h
    have hst0 : st0.1 = psUpdate [] st0.2 :=
      parentPhase_inv w cfg (discoveryState w cfg) (discoveryState_inv w cfg) st0 hpp
    rw [← hps, ← hlog, hst0, ← psUpdate_append]

theorem resolveLog_inv (w : World) (cfg : Config) (ps : ParamSet)
    (log : List (String × Value)) (h : resolveLog w cfg = .ok (ps, log)) :
    ps = psUpdate [] log := by
  rw [resolveLog] at h
  cases hps : preSsmState w cfg with
  | error m => rw [hps] at h; simp [Bind.bind, Except.bind] at h
  | ok st0 =>
    rw [hps] at h
    simp only [Bind.bind, Except.bind, pure, Except.pure, Except.ok.injEq, Prod.mk.injEq] at h
    obtain ⟨hps1, hlog1⟩ := h
    have hst0 : st0.1 = psUpdate [] st0.2 := preSsm_inv w cfg st0.1 st0.2 (by rw [hps])
    rw [← hps1, ← hlog1, hst0, ← psUpdate_append, ← psUpdate_append]
    simp [List.append_assoc]

/-- C1: in every successful resolution run, the final ParameterSet holds
exactly the keys written by the phases (no key is ever deleted), and each
key's final value is the one written by the highest-precedence (latest)
write in the run's ordered write log — later phases, and later parent-stack
entries within the parent phase, override earlier ones. -/
theorem resolve_last_writer_wins (w : World) (cfg : Config) (ps : ParamSet)
    (log : List (String × Value)) (h : resolveLog w cfg = .ok (ps, log)) (k : String) :
    psGet ps k = lastWrite log k := by
  rw [resolveLog_inv w cfg ps log h, psGet_psUpdate_nil]

/-- Witness for C1: a concrete run in which the CLI phase overrides the
phase-1 `Region` write; the final value is the later (CLI) write. -/
theorem resolve_last_writer_wins_witness :
    resolveLog
        ⟨[], [], fun _ => [], fun _ _ => .notExist, none, fun _ => none⟩
        ⟨"acct", "r1", "dep", "svc", "dev", "zone", none, none, none, ["Region=r2"]⟩ =
      Except.ok
        ([("AccountId", some "acct"), ("Region", some "r2"), ("DeploymentName", some "dep"),
          ("EnvironmentNameLower", some "dev"), ("EnvironmentNameUpper", some "DEV"),
          ("VPCId", none), ("VPCCidr", none), ("PublicHostedZoneName", none),
          ("PublicHostedZoneId", none), ("PrivateHostedZoneName", none),
          ("PrivateHostedZoneId", none)],
         [("AccountId", some "acct"), ("Region", some "r1"), ("DeploymentName", some "dep"),
          ("EnvironmentNameLower", some "dev"), ("EnvironmentNameUpper", some "DEV"),
          ("VPCId", none), ("VPCCidr", none), ("PublicHostedZoneName", none),
          ("PublicHostedZoneId", none), ("PrivateHostedZoneName", none),
          ("PrivateHostedZoneId", none), ("Region", some "r2")]) ∧
    psGet
        [("AccountId", some "acct"), ("Region", some "r2"), ("DeploymentName", some "dep"),
         ("EnvironmentNameLower", some "dev"), ("EnvironmentNameUpper", some "DEV"),
         ("VPCId", none), ("VPCCidr", none), ("PublicHostedZoneName", none),
         ("PublicHostedZoneId", none), ("PrivateHostedZoneName", none),
         ("PrivateHostedZoneId", none)] "Region" =
      lastWrite
        [("AccountId", some "acct"), ("Region", some "r1"), ("DeploymentName", some "dep"),
         ("EnvironmentNameLower", some "dev"), ("EnvironmentNameUpper", some "DEV"),
         ("VPCId", none), ("VPCCidr", none), ("PublicHostedZoneName", none),
         ("PublicHostedZoneId", none), ("PrivateHostedZoneName", none),
         ("PrivateHostedZoneId", none), ("Region", some "r2")] "Region" :=
  ⟨rfl,
   resolve_last_writer_wins
     ⟨[], [], fun _ => [], fun _ _ => .notExist, none, fun _ => none⟩
     ⟨"acct", "r1", "dep", "svc", "dev", "zone", none, none, none, ["Region=r2"]⟩
     _ _ rfl "Region"⟩

/-- C2: in the parent-stack phase, the first entry whose canonically-named
stack yields an empty output dict (in particular one whose stack does not
exist, by the second conjunct) aborts the run with the critical error;
otherwise every entry's outputs are merged into the ParameterSet in list
order. -/
theorem parent_stacks_fatal_or_merge :
    (∀ (w : World) (cfg : Config) (st : ParamSet × List (String × Value)),
      parentPhase w cfg st =
        (match (parentEntries cfg).find? (fun e => (parentOutputs w cfg e).isEmpty) with
         | some e =>
           Except.error (criticalParentMsg
             (outputStackName cfg.projectName cfg.environmentName
               (parseParentEntry e cfg.awsRegion).1)
             (parseParentEntry e cfg.awsRegion).2)
         | none =>
           Except.ok
             ((parentEntries cfg).foldl (fun a e => psUpdate a (parentOutputs w cfg e)) st.1,
              st.2 ++
                (parentEntries cfg).foldl (fun acc e => acc ++ parentOutputs w cfg e) []))) ∧
    (∀ (w : World) (region : String) (proj : Option String) (env base : String),
      w.stacksAt region (outputStackName proj env base) = DescribeResult.notExist →
      getStackOutputs w region proj env base = []) := by
  constructor
  · intro w cfg st
    rw [parentPhase, parentFold_char]
  · intro w region proj env base h
    simp only [getStackOutputs, h]

/-- Witness for C2: a world where the single parent stack exists with one
output (merged), a world where it does not exist (fatal error), and the
does-not-exist case yielding the empty output dict. -/
theorem parent_stacks_fatal_or_merge_witness :
    parentPhase
        ⟨[], [], fun _ => [],
         fun _ name =>
           if name = "DEV-p1" then .described (some [⟨some "K", some "v"⟩]) else .notExist,
         none, fun _ => none⟩
        ⟨"acct", "r", "dep", "svc", "dev", "zone", none, none, some "p1", []⟩ ([], []) =
      Except.ok ([("K", some "v")], [("K", some "v")]) ∧
    parentPhase
        ⟨[], [], fun _ => [], fun _ _ => .notExist, none, fun _ => none⟩
        ⟨"acct", "r", "dep", "svc", "dev", "zone", none, none, some "p1", []⟩ ([], []) =
      Except.error (criticalParentMsg "DEV-p1" "r") ∧
    getStackOutputs
        ⟨[], [], fun _ => [], fun _ _ => .notExist, none, fun _ => none⟩
        "r" none "dev" "p1" = [] :=
  ⟨(parent_stacks_fatal_or_merge.1
      ⟨[], [], fun _ => [],
       fun _ name =>
         if name = "DEV-p1" then .described (some [⟨some "K", some "v"⟩]) else .notExist,
       none, fun _ => none⟩
      ⟨"acct", "r", "dep", "svc", "dev", "zone", none, none, some "p1", []⟩ ([], [])).trans rfl,
   (parent_stacks_fatal_or_merge.1
      ⟨[], [], fun _ => [], fun _ _ => .notExist, none, fun _ => none⟩
      ⟨"acct", "r", "dep", "svc", "dev", "zone", none, none, some "p1", []⟩ ([], [])).trans rfl,
   parent_stacks_fatal_or_merge.2
     ⟨[], [], fun _ => [], fun _ _ => .notExist, none, fun _ => none⟩
     "r" none "dev" "p1" rfl⟩

/-- C10: the SSM parameter-store lookup builds its key from the value of
`EnvironmentNameLower` held in the ParameterSet at lookup time (after the
parent-stack and BuildId phases), not from the original environment-name
input: the store is read exactly at `/deploy/{that value}/params.json`, so a
parent-stack output overwriting the key redirects the lookup. -/
theorem ssm_lookup_uses_current_value (w : World) (cfg : Config) (ps : ParamSet)
    (log : List (String × Value)) (h : preSsmState w cfg = Except.ok (ps, log)) :
    resolveLog w cfg = Except.ok
      (psUpdate (psUpdate ps
          (match w.ssm ("/deploy/" ++ pyStr (valAt ps "EnvironmentNameLower") ++ "/params.json")
           with
           | some kvs => kvs
           | none => []))
        (cliWrites cfg.cliParams),
       (log ++
          (match w.ssm ("/deploy/" ++ pyStr (valAt ps "EnvironmentNameLower") ++ "/params.json")
           with
           | some kvs => kvs
           | none => [])) ++ cliWrites cfg.cliParams) := by
  rw [resolveLog, h]
  simp [Bind.bind, Except.bind, pure, Except.pure, ssmWrites, ssmPath]

/-- A world for the C10 witness: the parent stack `DEV-base` exports
`EnvironmentNameLower = "other"`, and the key/value store holds a marker
only under `/deploy/other/params.json`. -/
def wOverwrite : World :=
  ⟨[], [], fun _ => [],
   fun _ name =>
     if name = "DEV-base" then .described (some [⟨some "EnvironmentNameLower", some "other"⟩])
     else .notExist,
   none,
   fun p => if p = "/deploy/other/params.json" then some [("Marker", some "yes")] else none⟩

/-- A config for the C10 witness: environment `dev`, one parent stack. -/
def cfgOverwrite : Config := ⟨"a", "r", "d", "svc", "dev", "z", none, none, some "base", []⟩

/-- Witness for C10: the parent output overwrites `EnvironmentNameLower` to
`other`, and the store is then read at `/deploy/other/params.json` (the
marker it holds there ends up in the run's output). -/
theorem ssm_lookup_uses_current_value_witness :
    preSsmState wOverwrite cfgOverwrite =
      Except.ok
        ([("AccountId", some "a"), ("Region", some "r"), ("DeploymentName", some "d"),
          ("EnvironmentNameLower", some "other"), ("EnvironmentNameUpper", some "DEV"),
          ("VPCId", none), ("VPCCidr", none), ("PublicHostedZoneName", none),
          ("PublicHostedZoneId", none), ("PrivateHostedZoneName", none),
          ("PrivateHostedZoneId", none)],
         [("AccountId", some "a"), ("Region", some "r"), ("DeploymentName", some "d"),
          ("EnvironmentNameLower", some "dev"), ("EnvironmentNameUpper", some "DEV"),
          ("VPCId", none), ("VPCCidr", none), ("PublicHostedZoneName", none),
          ("PublicHostedZoneId", none), ("PrivateHostedZoneName", none),
          ("PrivateHostedZoneId", none), ("EnvironmentNameLower", some "other")]) ∧
    valAt
        [("AccountId", some "a"), ("Region", some "r"), ("DeploymentName", some "d"),
         ("EnvironmentNameLower", some "other"), ("EnvironmentNameUpper", some "DEV"),
         ("VPCId", none), ("VPCCidr", none), ("PublicHostedZoneName", none),
         ("PublicHostedZoneId", none), ("PrivateHostedZoneName", none),
         ("PrivateHostedZoneId", none)] "EnvironmentNameLower" = some "other" ∧
    wOverwrite.ssm "/deploy/other/params.json" = some [("Marker", some "yes")] ∧
    resolveLog wOverwrite cfgOverwrite = Except.ok
      (psUpdate (psUpdate
          [("AccountId", some "a"), ("Region", some "r"), ("DeploymentName", some "d"),
           ("EnvironmentNameLower", some "other"), ("EnvironmentNameUpper", some "DEV"),
           ("VPCId", none), ("VPCCidr", none), ("PublicHostedZoneName", none),
           ("PublicHostedZoneId", none), ("PrivateHostedZoneName", none),
           ("PrivateHostedZoneId", none)]
          (match
            wOverwrite.ssm ("/deploy/" ++
              pyStr (valAt
                [("AccountId", some "a"), ("Region", some "r"), ("DeploymentName", some "d"),
                 ("EnvironmentNameLower", some "other"), ("EnvironmentNameUpper", some "DEV"),
                 ("VPCId", none), ("VPCCidr", none), ("PublicHostedZoneName", none),
                 ("PublicHostedZoneId", none), ("PrivateHostedZoneName", none),
                 ("PrivateHostedZoneId", none)] "EnvironmentNameLower") ++ "/params.json")
           with
           | some kvs => kvs
           | none => []))
        (cliWrites cfgOverwrite.cliParams),
       ([("AccountId", some "a"), ("Region", some "r"), ("DeploymentName", some "d"),
         ("EnvironmentNameLower", some "dev"), ("EnvironmentNameUpper", some "DEV"),
         ("VPCId", none), ("VPCCidr", none), ("PublicHostedZoneName", none),
         ("PublicHostedZoneId", none), ("PrivateHostedZoneName", none),
         ("PrivateHostedZoneId", none), ("EnvironmentNameLower", some "other")] ++
          (match
            wOverwrite.ssm ("/deploy/" ++
              pyStr (valAt
                [("AccountId", some "a"), ("Region", some "r"), ("DeploymentName", some "d"),
                 ("EnvironmentNameLower", some "other"), ("EnvironmentNameUpper", some "DEV"),
                 ("VPCId", none), ("VPCCidr", none), ("PublicHostedZoneName", none),
                 ("PublicHostedZoneId", none), ("PrivateHostedZoneName", none),
                 ("PrivateHostedZoneId", none)] "EnvironmentNameLower") ++ "/params.json")
           with
           | some kvs => kvs
           | none => [])) ++ cliWrites cfgOverwrite.cliParams) :=
  ⟨rfl, rfl, rfl,
   ssm_lookup_uses_current_value wOverwrite cfgOverwrite _ _ rfl⟩

/-! ## Phase-1 contents (claim C8) -/

/-- C8 counterexample: with environment name `Dev` and project name `myProj`,
no phase-1 parameter value equals the original-case environment name `Dev`,
nor the lower/upper-cased project name — refuting the claim that phase 1
materializes the project and environment names each in original, lower, and
upper case. -/
theorem phase1_original_case_counterexample :
    (⟨"111", "eu-west-1", "dep", "svc", "Dev", "zone", some "myProj", none, none, []⟩ :
      Config).environmentName = "Dev" ∧
    (phase1Params
        ⟨"111", "eu-west-1", "dep", "svc", "Dev", "zone", some "myProj", none, none, []⟩).all
      (fun kv =>
        !(kv.2 == some "Dev") && !(kv.2 == some "myproj") && !(kv.2 == some "MYPROJ")) =
      true :=
  ⟨rfl, by decide⟩

/-- C8 (amended): phase 1 materializes the account id, region, deployment
name, and the environment name in lower and upper case as two separate
parameters; the project name is added in original case only (when truthy),
and a provided build id is added; no other keys are written — in particular
neither the original-case environment name nor cased project-name variants
are phase-1 parameters. -/
theorem phase1_params_amended (cfg : Config) :
    psGet (phase1Params cfg) "AccountId" = some (some cfg.awsAccountId) ∧
    psGet (phase1Params cfg) "Region" = some (some cfg.awsRegion) ∧
    psGet (phase1Params cfg) "DeploymentName" = some (some cfg.deploymentName) ∧
    psGet (phase1Params cfg) "EnvironmentNameLower" =
      some (some (pyLower cfg.environmentName)) ∧
    psGet (phase1Params cfg) "EnvironmentNameUpper" =
      some (some (pyUpper cfg.environmentName)) ∧
    psGet (phase1Params cfg) "ProjectName" =
      (if pyTruthyOpt cfg.projectName then some cfg.projectName else none) ∧
    psGet (phase1Params cfg) "BuildId" =
      (if pyTruthyOpt cfg.buildId then some cfg.buildId else none) ∧
    (psKeys (phase1Params cfg)).all
      (fun k =>
        (["AccountId", "Region", "DeploymentName", "EnvironmentNameLower",
          "EnvironmentNameUpper", "ProjectName", "BuildId"] : List String).contains k) =
      true := by
  cases hp : pyTruthyOpt cfg.projectName <;> cases hb : pyTruthyOpt cfg.buildId <;>
    simp [phase1Params, psGet, psSet, psKeys, List.find?, hp, hb]

/-! ## Template-parameter reconciliation (`deploy`, lines 482-516) -/

/-- A declared template parameter: `defaultVal = none` models the absence of
the `Default` key, `noEcho` the `NoEcho` flag (display-only). -/
structure ParamDecl where
  defaultVal : Option String
  noEcho : Bool
deriving DecidableEq

/-- Ascending insertion (helper for Python `sorted`). -/
def insertSorted (x : String) : List String → List String
  | [] => [x]
  | y :: ys => if y < x then y :: insertSorted x ys else x :: y :: ys

/-- Python `sorted(...)` over strings. -/
def sortStrings (l : List String) : List String := l.foldr insertSorted []

/-- One iteration of the parameter-resolution loop of deploy.py lines
489-506: forward a declared key present in the dict, record a missing one
when it has no default. -/
def reconcileStep (ps : ParamSet) (acc : List (String × String) × List String)
    (kd : String × ParamDecl) : List (String × String) × List String :=
  if psHas ps kd.1 then (acc.1 ++ [(kd.1, pyStr (valAt ps kd.1))], acc.2)
  else if kd.2.defaultVal.isSome then acc
  else (acc.1, acc.2 ++ [kd.1])

/-- Template reconciliation (deploy.py lines 482-516): build the forwarded
CloudFormation parameters and the missing list, and fail with the missing
keys plus the sorted available parameter names when any key is missing. -/
def reconcile (templateParams : List (String × ParamDecl)) (ps : ParamSet) :
    Except (List String × List String) (List (String × String)) :=
  let r := templateParams.foldl (reconcileStep ps) ([], [])
  if r.2.isEmpty then Except.ok r.1
  else Except.error (r.2, sortStrings (psKeys ps))

/-- Spec-side (claim C3): declared keys absent from the ParameterSet and
lacking a default, in declaration order. -/
def missingDeclared (templateParams : List (String × ParamDecl)) (ps : ParamSet) :
    List String :=
  (templateParams.filter (fun kd => !psHas ps kd.1 && kd.2.defaultVal.isNone)).map (·.1)

/-- Spec-side (claim C3): the declared parameters forwarded to the stack
call — exactly the declared keys present in the ParameterSet. -/
def forwardedParams (templateParams : List (String × ParamDecl)) (ps : ParamSet) :
    List (String × String) :=
  (templateParams.filter (fun kd => psHas ps kd.1)).map
    (fun kd => (kd.1, pyStr (valAt ps kd.1)))

theorem reconcileFold_char (ps : ParamSet) :
    ∀ (tps : List (String × ParamDecl)) (acc : List (String × String) × List String),
      tps.foldl (reconcileStep ps) acc =
        (acc.1 ++ forwardedParams tps ps, acc.2 ++ missingDeclared tps ps) := by
  intro tps
  induction tps with
  | nil => intro acc; simp [forwardedParams, missingDeclared]
  | cons kd rest ih =>
    intro acc
    simp only [List.foldl_cons]
    rw [ih (reconcileStep ps acc kd)]
    by_cases h1 : psHas ps kd.1 = true
    · simp [reconcileStep, h1, forwardedParams, missingDeclared, List.filter_cons]
    · have h1' : psHas ps kd.1 = false := by
        cases h : psHas ps kd.1
        · rfl
        · exact absurd h h1
      by_cases h2 : kd.2.defaultVal.isSome = true
      · have h2n : kd.2.defaultVal ≠ none := Option.isSome_iff_ne_none.mp h2
        simp [reconcileStep, h1', h2, h2n, forwardedParams, missingDeclared, List.filter_cons]
      · have h2' : kd.2.defaultVal.isNone = true := by
          cases h : kd.2.defaultVal
          · rfl
          · rw [h] at h2; exact absurd rfl h2
        simp [reconcileStep, h1', h2', Option.isSome_iff_ne_none, forwardedParams,
          missingDeclared, List.filter_cons, Option.isNone_iff_eq_none.mp h2']

/-- C3: template reconciliation fails exactly when some declared key is
absent from the resolved ParameterSet and has no default; on failure it
reports precisely those keys together with the sorted full list of available
parameter names; declared keys present in the set are forwarded, and keys in
the set that are not declared are not forwarded and cause no error. -/
theorem reconcile_spec (templateParams : List (String × ParamDecl)) (ps : ParamSet) :
    reconcile templateParams ps =
      (if missingDeclared templateParams ps = [] then
        Except.ok (forwardedParams templateParams ps)
      else
        Except.error (missingDeclared templateParams ps, sortStrings (psKeys ps))) := by
  rw [reconcile, reconcileFold_char ps templateParams ([], [])]
  simp only [List.nil_append]
  by_cases h : missingDeclared templateParams ps = []
  · simp [h]
  · simp [h, List.isEmpty_iff]

/-! ## Template processing (`deploy`, lines 454-483; claim C9) -/

/-- The parsed template document; `parameters` is the `Parameters` section
(`cf_template.get('Parameters', {})`, absent section = empty list). -/
structure CfDoc where
  parameters : List (String × ParamDecl)

/-- The external template collaborators: `yaml.safe_load` (fallible) and the
Jinja2 `render_template_string` engine. -/
structure TemplateWorld where
  parse : String → Option CfDoc
  render : String → ParamSet → String

/-- One observable call to a template collaborator. -/
inductive TplCall where
  | parseCall
  | renderCall
deriving DecidableEq

/-- The template-processing steps of `deploy` (lines 454-483), instrumented
with the performed call sequence: parse the file body (line 459), render it
once with the resolved parameters (line 472), re-parse the rendered body
(line 477), and extract the declared parameters from the re-parse (line 483).
`none` models the raised parse errors. -/
def templatePhase (tw : TemplateWorld) (templateBody : String) (ps : ParamSet) :
    Option (List TplCall × String × List (String × ParamDecl)) :=
  match tw.parse templateBody with
  | none => none
  | some _ =>
    let rendered := tw.render templateBody ps
    match tw.parse rendered with
    | none => none
    | some doc =>
      some ([TplCall.parseCall, TplCall.renderCall, TplCall.parseCall], rendered,
        doc.parameters)

/-- C9 counterexample: at a concrete engine and template body, the performed
call sequence contains exactly one render call — the template engine is not
invoked twice per deploy. -/
theorem template_engine_single_render_counterexample :
    (templatePhase ⟨fun _ => some ⟨[]⟩, fun b _ => b⟩ "T" []).map
      (fun r => r.1.count TplCall.renderCall) = some 1 := by
  rfl

/-- C9 (amended): per deploy the template engine is invoked exactly once and
the template parser twice; the declared template parameters are extracted
from the parse of the rendered body, and the single render's output is the
final template body (reconciliation then runs on those declared
parameters). -/
theorem template_single_render_spec (tw : TemplateWorld) (templateBody : String)
    (ps : ParamSet) (trace : List TplCall) (finalBody : String)
    (decls : List (String × ParamDecl))
    (h : templatePhase tw templateBody ps = some (trace, finalBody, decls)) :
    trace.count TplCall.renderCall = 1 ∧
    trace.count TplCall.parseCall = 2 ∧
    finalBody = tw.render templateBody ps ∧
    (tw.parse (tw.render templateBody ps)).map CfDoc.parameters = some decls := by
  rw [templatePhase] at h
  cases h1 : tw.parse templateBody with
  | none => rw [h1] at h; cases h
  | some d1 =>
    rw [h1] at h
    cases h2 : tw.parse (tw.render templateBody ps) with
    | none => simp only [h2] at h; cases h
    | some d2 =>
      simp only [h2, Option.some.injEq, Prod.mk.injEq] at h
      obtain ⟨ht, hf, hd⟩ := h
      subst ht; subst hf; subst hd
      refine ⟨rfl, rfl, rfl, ?_⟩
      simp

/-- Witness for C9's amended statement at a concrete engine. -/
theorem template_single_render_spec_witness :
    templatePhase ⟨fun _ => some ⟨[("A", ⟨none, false⟩)]⟩, fun b _ => b ++ "!"⟩ "T" [] =
      some ([TplCall.parseCall, TplCall.renderCall, TplCall.parseCall], "T!",
        [("A", ⟨none, false⟩)]) ∧
    (([TplCall.parseCall, TplCall.renderCall, TplCall.parseCall] : List TplCall).count
        TplCall.renderCall = 1 ∧
      ([TplCall.parseCall, TplCall.renderCall, TplCall.parseCall] : List TplCall).count
        TplCall.parseCall = 2 ∧
      "T!" = (⟨fun _ => some ⟨[("A", ⟨none, false⟩)]⟩, fun b _ => b ++ "!"⟩ :
        TemplateWorld).render "T" [] ∧
      ((⟨fun _ => some ⟨[("A", ⟨none, false⟩)]⟩, fun b _ => b ++ "!"⟩ :
          TemplateWorld).parse
          ((⟨fun _ => some ⟨[("A", ⟨none, false⟩)]⟩, fun b _ => b ++ "!"⟩ :
            TemplateWorld).render "T" [])).map CfDoc.parameters =
        some [("A", ⟨none, false⟩)]) :=
  ⟨rfl,
   template_single_render_spec
     ⟨fun _ => some ⟨[("A", ⟨none, false⟩)]⟩, fun b _ => b ++ "!"⟩ "T" [] _ _ _ rfl⟩

/-! ## StackDeployer state machine (`deploy_cloudformation`, lines 150-250) -/

/-- One entry of the stack event history. -/
structure StackEvent where
  timestamp : Nat
  info : String
deriving DecidableEq

/-- The observable AWS calls `deploy_cloudformation` makes, in order. -/
inductive CfAction where
  | describeCall
  | deleteStack
  | waitDelete (delay maxAttempts : Nat)
  | createStack
  | updateStack
  | waitOp (waiterType : String) (delay maxAttempts : Nat)
  | fetchEvents
deriving DecidableEq

/-- How one `deploy_cloudformation` run ends: `success` models `return True`,
`surfaced evs` the re-raise after printing the event history `evs`, and
`raisedError` every other propagated exception. -/
inductive CfOutcome where
  | success
  | surfaced (events : List StackEvent)
  | raisedError
deriving DecidableEq

/-- The AWS responses one `deploy_cloudformation` run observes.
`describeResult` is `describe_stacks` (error = `ClientError` message, ok =
the stack status); `updateRaise`/`createRaise` are the `ClientError` messages
of `update_stack`/`create_stack` when they raise; the waiter booleans say
whether the delete waiter and the create/update waiter complete; `events` is
the `describe_stack_events` listing in its native (newest-first) order. -/
structure CfWorld where
  describeResult : Except String String
  updateRaise : Option String
  createRaise : Option String
  deleteWaitOk : Bool
  opWaitOk : Bool
  events : List StackEvent

/-- The update-error message test of deploy.py line 192. -/
def noUpdatesMsg : String := "No updates are to be performed"

/-- The describe-error message test of deploy.py line 200. -/
def doesNotExistMsg : String := "does not exist"

/-- The terminal waiter block of deploy.py lines 219-250: wait with delay 30
and 120 max attempts; on any wait failure fetch the complete event history,
surface it reversed into chronological order, and re-raise. -/
def runOpWaiter (w : CfWorld) (acts : List CfAction) (waiterType : String) :
    List CfAction × CfOutcome :=
  if w.opWaitOk then (acts ++ [CfAction.waitOp waiterType 30 120], CfOutcome.success)
  else (acts ++ [CfAction.waitOp waiterType 30 120, CfAction.fetchEvents],
    CfOutcome.surfaced w.events.reverse)

/-- Embeds `create_stack` in the outer does-not-exist handler (deploy.py lines
202-214): any failure there is re-raised. -/
def handlerCreate (w : CfWorld) (acts : List CfAction) : List CfAction × CfOutcome :=
  match w.createRaise with
  | some _ => (acts ++ [CfAction.createStack], CfOutcome.raisedError)
  | none => runOpWaiter w (acts ++ [CfAction.createStack]) "stack_create_complete"

/-- Embeds `deploy_cloudformation` (deploy.py lines 150-250). The outer `try` spans
lines 157-197, so a `ClientError` containing `does not exist` raised by the
describe, the RollbackComplete-path create, or the update re-raise reaches
the handler at line 199 and leads to the handler's create. -/
def deployCloudformation (w : CfWorld) : List CfAction × CfOutcome :=
  match w.describeResult with
  | Except.error msg =>
    if pyInStr doesNotExistMsg msg then handlerCreate w [CfAction.describeCall]
    else ([CfAction.describeCall], CfOutcome.raisedError)
  | Except.ok stackStatus =>
    if stackStatus = "ROLLBACK_COMPLETE" then
      let acts := [CfAction.describeCall, CfAction.deleteStack, CfAction.waitDelete 15 40]
      if !w.deleteWaitOk then (acts, CfOutcome.raisedError)
      else
        match w.createRaise with
        | none => runOpWaiter w (acts ++ [CfAction.createStack]) "stack_create_complete"
        | some m =>
          if pyInStr doesNotExistMsg m then handlerCreate w (acts ++ [CfAction.createStack])
          else (acts ++ [CfAction.createStack], CfOutcome.raisedError)
    else
      match w.updateRaise with
      | none =>
        runOpWaiter w [CfAction.describeCall, CfAction.updateStack] "stack_update_complete"
      | some m =>
        if pyInStr noUpdatesMsg m then
          ([CfAction.describeCall, CfAction.updateStack], CfOutcome.success)
        else if pyInStr doesNotExistMsg m then
          handlerCreate w [CfAction.describeCall, CfAction.updateStack]
        else ([CfAction.describeCall, CfAction.updateStack], CfOutcome.raisedError)

/-- C4: the deployer's transitions are exactly: a does-not-exist describe
result leads to create; status `ROLLBACK_COMPLETE` leads to delete, a
bounded delete wait (delay 15, max 40 attempts, exceeding it is fatal), then
create; any other existing status leads to update; and an update call
reporting `No updates are to be performed` is terminal success with no wait
and no error. -/
theorem deploy_cf_transitions :
    (∀ (w : CfWorld) (msg : String), w.describeResult = Except.error msg →
      pyInStr doesNotExistMsg msg = true →
      (deployCloudformation w).1.take 2 = [CfAction.describeCall, CfAction.createStack]) ∧
    (∀ w : CfWorld, w.describeResult = Except.ok "ROLLBACK_COMPLETE" →
      (deployCloudformation w).1.take 3 =
        [CfAction.describeCall, CfAction.deleteStack, CfAction.waitDelete 15 40] ∧
      (w.deleteWaitOk = false →
        deployCloudformation w =
          ([CfAction.describeCall, CfAction.deleteStack, CfAction.waitDelete 15 40],
           CfOutcome.raisedError)) ∧
      (w.deleteWaitOk = true →
        (deployCloudformation w).1.take 4 =
          [CfAction.describeCall, CfAction.deleteStack, CfAction.waitDelete 15 40,
           CfAction.createStack])) ∧
    (∀ (w : CfWorld) (s : String), w.describeResult = Except.ok s →
      s ≠ "ROLLBACK_COMPLETE" →
      (deployCloudformation w).1.take 2 = [CfAction.describeCall, CfAction.updateStack]) ∧
    (∀ (w : CfWorld) (s m : String), w.describeResult = Except.ok s →
      s ≠ "ROLLBACK_COMPLETE" → w.updateRaise = some m → pyInStr noUpdatesMsg m = true →
      deployCloudformation w =
        ([CfAction.describeCall, CfAction.updateStack], CfOutcome.success)) := by
  refine ⟨?_, ?_, ?_, ?_⟩
  · intro w msg hd hin
    cases hc : w.createRaise <;> cases ho : w.opWaitOk <;>
      simp [deployCloudformation, hd, hin, handlerCreate, hc, runOpWaiter, ho]
  · intro w hd
    refine ⟨?_, ?_, ?_⟩
    · cases hdel : w.deleteWaitOk <;> cases hc : w.createRaise <;> cases ho : w.opWaitOk <;>
        simp_all [deployCloudformation, handlerCreate, runOpWaiter] <;> split <;> simp
    · intro hdel
      simp [deployCloudformation, hd, hdel]
    · intro hdel
      cases hc : w.createRaise <;> cases ho : w.opWaitOk <;>
        simp_all [deployCloudformation, handlerCreate, runOpWaiter] <;> split <;> simp
  · intro w s hd hs
    cases hu : w.updateRaise <;> cases hc : w.createRaise <;> cases ho : w.opWaitOk <;>
      simp_all [deployCloudformation, handlerCreate, runOpWaiter] <;>
        (try split) <;> simp_all <;> (try split) <;> simp_all
  · intro w s m hd hs hu hin
    simp [deployCloudformation, hd, hs, hu, hin]

/-- Witness for C4 at three concrete worlds: a missing stack, a
RollbackComplete stack, and an existing stack whose update reports no
updates. -/
theorem deploy_cf_transitions_witness :
    (deployCloudformation
        ⟨Except.error "Stack with id S does not exist", none, none, true, true, []⟩).1.take 2 =
      [CfAction.describeCall, CfAction.createStack] ∧
    (deployCloudformation
        ⟨Except.ok "ROLLBACK_COMPLETE", none, none, true, true, []⟩).1.take 4 =
      [CfAction.describeCall, CfAction.deleteStack, CfAction.waitDelete 15 40,
       CfAction.createStack] ∧
    deployCloudformation
        ⟨Except.ok "UPDATE_COMPLETE", some "No updates are to be performed", none, true, true,
         []⟩ =
      ([CfAction.describeCall, CfAction.updateStack], CfOutcome.success) :=
  ⟨deploy_cf_transitions.1
     ⟨Except.error "Stack with id S does not exist", none, none, true, true, []⟩
     "Stack with id S does not exist" rfl (by decide),
   (deploy_cf_transitions.2.1
     ⟨Except.ok "ROLLBACK_COMPLETE", none, none, true, true, []⟩ rfl).2.2 rfl,
   deploy_cf_transitions.2.2.2
     ⟨Except.ok "UPDATE_COMPLETE", some "No updates are to be performed", none, true, true, []⟩
     "UPDATE_COMPLETE" "No updates are to be performed" rfl (by decide) rfl (by decide)⟩

theorem runOpWaiter_surfaced (w : CfWorld) (acts : List CfAction) (waiterType : String)
    (acts' : List CfAction) (evs : List StackEvent)
    (h : runOpWaiter w acts waiterType = (acts', CfOutcome.surfaced evs)) :
    evs = w.events.reverse ∧ CfAction.fetchEvents ∈ acts' := by
  rw [runOpWaiter] at h
  cases ho : w.opWaitOk <;> rw [ho] at h <;> simp only [if_true, if_false, Bool.false_eq_true,
    Prod.mk.injEq] at h
  · obtain ⟨ha, he⟩ := h
    cases he
    subst ha
    simp
  · cases h.2

theorem handlerCreate_surfaced (w : CfWorld) (acts : List CfAction)
    (acts' : List CfAction) (evs : List StackEvent)
    (h : handlerCreate w acts = (acts', CfOutcome.surfaced evs)) :
    evs = w.events.reverse ∧ CfAction.fetchEvents ∈ acts' := by
  rw [handlerCreate] at h
  cases hc : w.createRaise <;> rw [hc] at h
  · exact runOpWaiter_surfaced w _ _ _ _ h
  · simp at h

/-- C7: whenever a create/update poll fails or times out, the deployer
surfaces the complete event history reversed from the listing order together
with the propagated failure — so when the underlying listing is newest-first
(timestamps non-increasing), the surfaced history is chronological,
oldest event first. -/
theorem failure_surfaces_chronological_events (w : CfWorld) (acts : List CfAction)
    (evs : List StackEvent)
    (h : deployCloudformation w = (acts, CfOutcome.surfaced evs))
    (hnewestFirst : List.Chain' (fun a b => b.timestamp ≤ a.timestamp) w.events) :
    evs = w.events.reverse ∧ CfAction.fetchEvents ∈ acts ∧
    List.Chain' (fun a b => a.timestamp ≤ b.timestamp) evs := by
  have core : evs = w.events.reverse ∧ CfAction.fetchEvents ∈ acts := by
    rw [deployCloudformation] at h
    split at h
    · -- describe raised a ClientError
      split at h
      · exact handlerCreate_surfaced w _ _ _ h
      · simp at h
    · -- describe returned a status
      split at h
      · -- ROLLBACK_COMPLETE path
        split at h
        · simp at h
        · split at h
          · exact runOpWaiter_surfaced w _ _ _ _ h
          · split at h
            · exact handlerCreate_surfaced w _ _ _ h
            · simp at h
      · -- update path
        split at h
        · exact runOpWaiter_surfaced w _ _ _ _ h
        · split at h
          · simp at h
          · split at h
            · exact handlerCreate_surfaced w _ _ _ h
            · simp at h
  refine ⟨core.1, core.2, ?_⟩
  rw [core.1]
  exact List.chain'_reverse.mpr hnewestFirst

/-- Witness for C7: an update whose waiter fails, with a two-event
newest-first listing; the surfaced history is its reverse, oldest first. -/
theorem failure_surfaces_chronological_events_witness :
    deployCloudformation
        ⟨Except.ok "CREATE_COMPLETE", none, none, true, false,
         [⟨5, "e2"⟩, ⟨3, "e1"⟩]⟩ =
      ([CfAction.describeCall, CfAction.updateStack,
        CfAction.waitOp "stack_update_complete" 30 120, CfAction.fetchEvents],
       CfOutcome.surfaced [⟨3, "e1"⟩, ⟨5, "e2"⟩]) ∧
    List.Chain' (fun a b => b.timestamp ≤ a.timestamp)
      ([⟨5, "e2"⟩, ⟨3, "e1"⟩] : List StackEvent) ∧
    (([⟨3, "e1"⟩, ⟨5, "e2"⟩] : List StackEvent) =
        (⟨Except.ok "CREATE_COMPLETE", none, none, true, false,
          [⟨5, "e2"⟩, ⟨3, "e1"⟩]⟩ : CfWorld).events.reverse ∧
      CfAction.fetchEvents ∈
        [CfAction.describeCall, CfAction.updateStack,
         CfAction.waitOp "stack_update_complete" 30 120, CfAction.fetchEvents] ∧
      List.Chain' (fun a b => a.timestamp ≤ b.timestamp)
        ([⟨3, "e1"⟩, ⟨5, "e2"⟩] : List StackEvent)) :=
  ⟨rfl, by simp [List.chain'_cons],
   failure_surfaces_chronological_events
     ⟨Except.ok "CREATE_COMPLETE", none, none, true, false, [⟨5, "e2"⟩, ⟨3, "e1"⟩]⟩
     [CfAction.describeCall, CfAction.updateStack,
      CfAction.waitOp "stack_update_complete" 30 120, CfAction.fetchEvents]
     [⟨3, "e1"⟩, ⟨5, "e2"⟩] rfl (by simp [List.chain'_cons])⟩

end CbdDeploy
